import Mathlib

/-!
Shallow embedding of the chat synchronization engine of
`src/app/stores/useChatStore.ts` (the zustand chat store of the Next.js
chat front-end).  Pure state transformations of the store's actions are
modelled as Lean functions over an explicit `ChatState`; each REST call's
outcome is passed in as an `Except RestError α` parameter (the resolution
of the awaited axios promise), and socket events are modelled as state
transformers.  Besides the successor state, each action returns the
observable effects the claims talk about: whether a REST request was
issued, how many times `useAuthStore.logout()` was invoked, which message
ids were dispatched to `markMessageAsRead`, and how many push channels
were opened.
-/

/-- The `type` field of `ChatError` (`"network" | "auth" | "validation" |
"server" | "socket"`). -/
inductive ErrType
  | network
  | auth
  | validation
  | server
  | socket
deriving DecidableEq, Repr

/-- `code?: string | number` of `ChatError`. -/
inductive ErrCode
  | str (s : String)
  | num (n : Int)
deriving DecidableEq, Repr

/-- `interface ChatError { message; code?; type? }`. -/
structure ChatError where
  message : String
  code : Option ErrCode
  type : Option ErrType
deriving DecidableEq, Repr

/-- `interface User { id; username; email }`. -/
structure User where
  id : String
  username : String
  email : String
deriving DecidableEq, Repr

/-- `interface Message { id; senderId; receiverId; content; read; createdAt }`. -/
structure Message where
  id : String
  senderId : String
  receiverId : String
  content : String
  read : Bool
  createdAt : String
deriving DecidableEq, Repr

/-- `interface Conversation { id; user; lastMessage?; unreadCount }`.
`unreadCount : number` is modelled as `Int`. -/
structure Conversation where
  id : String
  user : User
  lastMessage : Option Message
  unreadCount : Int
deriving DecidableEq, Repr

/-- The mutable fields of `ChatState` (the zustand store).  The
`socket: Socket | null` reference is modelled as an abstract channel id. -/
structure ChatState where
  socket : Option Nat
  conversations : List Conversation
  currentConversation : Option Conversation
  messages : List Message
  onlineUsers : List String
  loading : Bool
  error : Option ChatError
deriving DecidableEq, Repr

/-- The initial store value (`create<ChatState>((set, get) => ({ ... }))`). -/
def initialChatState : ChatState :=
  { socket := none
    conversations := []
    currentConversation := none
    messages := []
    onlineUsers := []
    loading := false
    error := none }

/-- `createChatError(message, type = "server", code?)`. -/
def createChatError (message : String) (type : ErrType) (code : Option ErrCode) :
    ChatError :=
  { message := message, type := some type, code := code }

/-- JavaScript `a || b` on strings: falsy (empty) falls through. -/
def jsOr (s fallback : String) : String :=
  if s = "" then fallback else s

/-- The shapes an axios/REST failure can take, following the branches of
`handleAxiosError`: a response with an HTTP status (whose body may carry a
`message`), a request with no response, some other axios error, a plain
`Error`, or an unknown thrown value. -/
inductive RestError
  | response (status : Int) (dataMessage : Option String) (errMessage : String)
  | noResponse
  | axiosOther (errMessage : String)
  | jsError (errMessage : String)
  | unknown
deriving DecidableEq, Repr

/-- `handleAxiosError`: classify a REST failure into a `ChatError`.
`401 → "auth"`, any other responded status → `"server"` (carrying the
status as `code`); no response / request-setup failures → `"network"`;
non-axios errors → `"server"`. -/
def handleAxiosError : RestError → ChatError
  | RestError.response status dataMessage errMessage =>
      createChatError (jsOr (dataMessage.getD "") errMessage)
        (if status = 401 then ErrType.auth else ErrType.server)
        (some (ErrCode.num status))
  | RestError.noResponse =>
      createChatError "Network error - no response from server" ErrType.network none
  | RestError.axiosOther errMessage =>
      createChatError errMessage ErrType.network none
  | RestError.jsError errMessage =>
      createChatError errMessage ErrType.server none
  | RestError.unknown =>
      createChatError "An unknown error occurred" ErrType.server none

/-- The shapes a socket-level error payload can take, following the
branches of `handleSocketError`. -/
inductive SocketErrVal
  | withMessage (m : String)
  | str (s : String)
  | other
deriving DecidableEq, Repr

/-- `handleSocketError`: classify a socket failure (always `"socket"`-kind). -/
def handleSocketError : SocketErrVal → ChatError
  | SocketErrVal.withMessage m =>
      createChatError (jsOr m "Socket connection error") ErrType.socket none
  | SocketErrVal.str s => createChatError s ErrType.socket none
  | SocketErrVal.other => createChatError "Socket connection error" ErrType.socket none

/-- `connectSocket`: returns early when `isAuthenticated` is false;
otherwise `io(API_URL, ...)` opens a fresh channel (`freshId`) and the
reference is stored with `set({ socket })` — there is no check for an
already-existing socket.  `ioFailure` models the `try/catch` around channel
creation.  The second component counts the channels opened by this call. -/
def connectSocket (isAuthenticated : Bool) (freshId : Nat)
    (ioFailure : Option SocketErrVal) (s : ChatState) : ChatState × Nat :=
  if !isAuthenticated then (s, 0)
  else
    match ioFailure with
    | some e => ({ s with error := some (handleSocketError e), socket := none }, 0)
    | none => ({ s with socket := some freshId }, 1)

/-- `disconnectSocket`: only when a socket reference exists is the channel
closed and `{ socket: null, onlineUsers: [] }` set.  The Bool records
whether `socket.disconnect()` was called. -/
def disconnectSocket (s : ChatState) : ChatState × Bool :=
  match s.socket with
  | some _ => ({ s with socket := none, onlineUsers := [] }, true)
  | none => (s, false)

/-- The per-conversation update performed by the `newMessage` handler on
the `conversations` list: the entry for `otherUserId` gets the message as
`lastMessage`, and its `unreadCount` is incremented exactly when the
message was not authored by the logged-in user. -/
def convUpdate (selfId : String) (m : Message) (otherUserId : String)
    (conv : Conversation) : Conversation :=
  if conv.user.id = otherUserId then
    { conv with
        lastMessage := some m
        unreadCount :=
          if m.senderId = selfId then conv.unreadCount else conv.unreadCount + 1 }
  else conv

/-- The `socket.on("newMessage", ...)` handler: if the message involves the
open conversation's peer it is appended to `messages` (unconditionally, no
id lookup), and a read receipt is dispatched when the peer authored it;
then, provided an authenticated user is known, the `conversations` list is
mapped through `convUpdate`.  The second component lists the message ids
passed to `markMessageAsRead`. -/
def newMessageHandler (selfUser : Option User) (m : Message) (s : ChatState) :
    ChatState × List String :=
  let s1 :=
    match s.currentConversation with
    | some cc =>
        if m.senderId = cc.user.id ∨ m.receiverId = cc.user.id then
          { s with messages := s.messages ++ [m] }
        else s
    | none => s
  let readReqs :=
    match s.currentConversation with
    | some cc => if m.senderId = cc.user.id then [m.id] else []
    | none => []
  match selfUser with
  | none => (s1, readReqs)
  | some user =>
      let otherUserId :=
        if m.senderId = user.id then m.receiverId else m.senderId
      ({ s1 with
          conversations := s1.conversations.map (convUpdate user.id m otherUserId) },
       readReqs)

/-- The `socket.on("userStatus", ...)` handler. -/
def applyUserStatus (userId : String) (isOnline : Bool) (s : ChatState) : ChatState :=
  { s with
      onlineUsers :=
        if isOnline then (s.onlineUsers.filter (fun i => i != userId)) ++ [userId]
        else s.onlineUsers.filter (fun i => i != userId) }

/-- The `socket.on("onlineUsers", ...)` handler. -/
def applyOnlineUsers (users : List String) (s : ChatState) : ChatState :=
  { s with onlineUsers := users }

/-- The `socket.on("error", ...)` handler. -/
def onSocketError (e : SocketErrVal) (s : ChatState) : ChatState :=
  { s with error := some (handleSocketError e) }

/-- The `socket.on("connect_error", ...)` handler. -/
def onConnectError (e : SocketErrVal) (s : ChatState) : ChatState :=
  { s with error := some (handleSocketError e), socket := none }

/-- `clearError`. -/
def clearError (s : ChatState) : ChatState :=
  { s with error := none }

/-- `isUserOnline`. -/
def isUserOnline (userId : String) (s : ChatState) : Bool :=
  s.onlineUsers.contains userId

/-- `fetchConversations`: guarded on `isAuthenticated`; on success the
snapshot replaces `conversations`; on failure the classified error is
stored and a 401 triggers `logout()`.  Returns (state, REST issued,
logout invocations). -/
def fetchConversations (isAuthenticated : Bool)
    (restResult : Except RestError (List Conversation)) (s : ChatState) :
    ChatState × Bool × Nat :=
  if !isAuthenticated then (s, false, 0)
  else
    match restResult with
    | Except.ok convs =>
        ({ s with conversations := convs, loading := false, error := none }, true, 0)
    | Except.error e =>
        let chatError := handleAxiosError e
        ({ s with error := some chatError, loading := false }, true,
         if chatError.code = some (ErrCode.num 401) then 1 else 0)

/-- The `{ messages, user }` body of `GET /chat/conversations/:userId`. -/
structure MessagesResponse where
  messages : List Message
  user : User
deriving DecidableEq, Repr

/-- `fetchMessages(userId)`: guarded on `isAuthenticated`.  On success the
response replaces `messages`, `currentConversation` is set to the existing
conversation for `userId` (or a synthesized one with `unreadCount := 0`),
and — only when the existing conversation had a truthy `unreadCount` — the
`conversations` entry is reset to 0 and read receipts are dispatched for
the fetched unread peer messages.  Returns (state, REST issued, logout
invocations, read-receipt message ids). -/
def fetchMessages (isAuthenticated : Bool) (userId : String)
    (restResult : Except RestError MessagesResponse) (s : ChatState) :
    ChatState × Bool × Nat × List String :=
  if !isAuthenticated then (s, false, 0, [])
  else
    match restResult with
    | Except.ok resp =>
        let existingConv := s.conversations.find? (fun c => c.user.id == userId)
        let conversation :=
          existingConv.getD
            { id := "conv_" ++ userId, user := resp.user, lastMessage := none,
              unreadCount := 0 }
        let s1 :=
          { s with
              messages := resp.messages
              currentConversation := some conversation
              loading := false
              error := none }
        match existingConv with
        | some c0 =>
            if c0.unreadCount ≠ 0 then
              let s2 :=
                { s1 with
                    conversations := s1.conversations.map (fun c =>
                      if c.user.id == userId then { c with unreadCount := 0 } else c) }
              let unreadIds :=
                (resp.messages.filter (fun m => !m.read && m.senderId == userId)).map
                  Message.id
              (s2, true, 0, unreadIds)
            else (s1, true, 0, [])
        | none => (s1, true, 0, [])
    | Except.error e =>
        let chatError := handleAxiosError e
        ({ s with error := some chatError, loading := false }, true,
         if chatError.code = some (ErrCode.num 401) then 1 else 0, [])

/-- Result of `sendMessage`: the resolved message or the thrown `ChatError`. -/
inductive SendOutcome
  | ok (m : Message)
  | err (e : ChatError)
deriving DecidableEq, Repr

/-- `sendMessage(receiverId, content)`: throws an `"auth"`-kind error when
not authenticated (before any REST call); on success the confirmed message
is appended to `messages` when the open conversation is the receiver's and
mirrored into the receiver's `lastMessage`; on failure the classified
error is stored and rethrown, and a 401 triggers `logout()`.  Returns
(state, outcome, logout invocations). -/
def sendMessage (isAuthenticated : Bool) (receiverId : String) (content : String)
    (restResult : Except RestError Message) (s : ChatState) :
    ChatState × SendOutcome × Nat :=
  if !isAuthenticated then
    (s,
     SendOutcome.err
       (createChatError "You must be logged in to send messages" ErrType.auth none),
     0)
  else
    match restResult with
    | Except.ok message =>
        let s1 :=
          match s.currentConversation with
          | some cc =>
              if cc.user.id == receiverId then
                { s with messages := s.messages ++ [message] }
              else s
          | none => s
        let s2 :=
          { s1 with
              conversations := s1.conversations.map (fun conv =>
                if conv.user.id == receiverId then
                  { conv with lastMessage := some message }
                else conv) }
        (s2, SendOutcome.ok message, 0)
    | Except.error e =>
        let chatError := handleAxiosError e
        ({ s with error := some chatError }, SendOutcome.err chatError,
         if chatError.code = some (ErrCode.num 401) then 1 else 0)

/-- `markMessageAsRead(messageId)`: guarded on `isAuthenticated`; on
success the local message's `read` flag is set; on failure no error state
is stored (read receipts are best-effort) but a 401 still triggers
`logout()`.  Returns (state, REST issued, logout invocations). -/
def markMessageAsRead (isAuthenticated : Bool) (messageId : String)
    (restResult : Except RestError Unit) (s : ChatState) :
    ChatState × Bool × Nat :=
  if !isAuthenticated then (s, false, 0)
  else
    match restResult with
    | Except.ok _ =>
        ({ s with
            messages := s.messages.map (fun m =>
              if m.id == messageId then { m with read := true } else m) },
         true, 0)
    | Except.error e =>
        let chatError := handleAxiosError e
        (s, true, if chatError.code = some (ErrCode.num 401) then 1 else 0)

/-- One synchronous transition of the store: an action entry point or the
synchronous body of a socket-event handler / REST-promise continuation.
REST results delivered by `fetchConversations` are well-typed snapshots
(non-negative `unreadCount`, as produced by the server's counting). -/
inductive Step : ChatState → ChatState → Prop
  | connect (auth : Bool) (freshId : Nat) (ioFailure : Option SocketErrVal)
      (s : ChatState) : Step s (connectSocket auth freshId ioFailure s).1
  | disconnect (s : ChatState) : Step s (disconnectSocket s).1
  | newMsg (selfUser : Option User) (m : Message) (s : ChatState) :
      Step s (newMessageHandler selfUser m s).1
  | status (userId : String) (isOnline : Bool) (s : ChatState) :
      Step s (applyUserStatus userId isOnline s)
  | bulkOnline (users : List String) (s : ChatState) :
      Step s (applyOnlineUsers users s)
  | sockErr (e : SocketErrVal) (s : ChatState) : Step s (onSocketError e s)
  | connErr (e : SocketErrVal) (s : ChatState) : Step s (onConnectError e s)
  | fetchConvs (auth : Bool) (r : Except RestError (List Conversation))
      (s : ChatState) (hr : ∀ cs, r = Except.ok cs → ∀ c ∈ cs, 0 ≤ c.unreadCount) :
      Step s (fetchConversations auth r s).1
  | fetchMsgs (auth : Bool) (userId : String) (r : Except RestError MessagesResponse)
      (s : ChatState) : Step s (fetchMessages auth userId r s).1
  | send (auth : Bool) (receiverId content : String) (r : Except RestError Message)
      (s : ChatState) : Step s (sendMessage auth receiverId content r s).1
  | markRead (auth : Bool) (messageId : String) (r : Except RestError Unit)
      (s : ChatState) : Step s (markMessageAsRead auth messageId r s).1
  | clearErr (s : ChatState) : Step s (clearError s)

/-- States reachable from the freshly created store. -/
def Reachable (s : ChatState) : Prop :=
  Relation.ReflTransGen Step initialChatState s

/-- Every tracked conversation — list entries and the open one — has a
non-negative unread count. -/
def stateNonneg (s : ChatState) : Prop :=
  (∀ c ∈ s.conversations, 0 ≤ c.unreadCount) ∧
  (∀ c, s.currentConversation = some c → 0 ≤ c.unreadCount)

theorem convUpdate_nonneg (selfId : String) (m : Message) (otherUserId : String)
    (c : Conversation) (hc : 0 ≤ c.unreadCount) :
    0 ≤ (convUpdate selfId m otherUserId c).unreadCount := by
  unfold convUpdate
  by_cases h1 : c.user.id = otherUserId <;> by_cases h2 : m.senderId = selfId <;>
    simp [h1, h2] <;> omega

theorem newMessageHandler_conversations_eq (user : User) (m : Message) (s : ChatState) :
    (newMessageHandler (some user) m s).1.conversations =
      s.conversations.map
        (convUpdate user.id m
          (if m.senderId = user.id then m.receiverId else m.senderId)) := by
  unfold newMessageHandler
  cases hc : s.currentConversation <;>
    simp [hc, apply_ite ChatState.conversations]

theorem newMessageHandler_none_conversations (m : Message) (s : ChatState) :
    (newMessageHandler none m s).1.conversations = s.conversations := by
  unfold newMessageHandler
  cases hc : s.currentConversation <;>
    simp [hc, apply_ite ChatState.conversations]

theorem newMessageHandler_currentConversation_eq (u : Option User) (m : Message)
    (s : ChatState) :
    (newMessageHandler u m s).1.currentConversation = s.currentConversation := by
  unfold newMessageHandler
  cases u <;> cases hc : s.currentConversation <;>
    simp [hc, apply_ite ChatState.currentConversation]

theorem fetchMessages_ok_messages (userId : String) (resp : MessagesResponse)
    (s : ChatState) :
    (fetchMessages true userId (Except.ok resp) s).1.messages = resp.messages := by
  unfold fetchMessages
  cases hfind : s.conversations.find? (fun c => c.user.id == userId) with
  | none => simp [hfind]
  | some c0 =>
      simp only [Bool.not_true, Bool.false_eq_true, if_false, hfind]
      split <;> rfl

theorem fetchMessages_ok_currentConversation (userId : String) (resp : MessagesResponse)
    (s : ChatState) :
    (fetchMessages true userId (Except.ok resp) s).1.currentConversation =
      some ((s.conversations.find? (fun c => c.user.id == userId)).getD
        { id := "conv_" ++ userId, user := resp.user, lastMessage := none,
          unreadCount := 0 }) := by
  unfold fetchMessages
  cases hfind : s.conversations.find? (fun c => c.user.id == userId) with
  | none => simp [hfind]
  | some c0 =>
      simp only [Bool.not_true, Bool.false_eq_true, if_false, hfind, Option.getD_some]
      split <;> rfl

theorem fetchMessages_ok_conversations (userId : String) (resp : MessagesResponse)
    (s : ChatState) :
    (fetchMessages true userId (Except.ok resp) s).1.conversations = s.conversations ∨
    (fetchMessages true userId (Except.ok resp) s).1.conversations =
      s.conversations.map (fun c =>
        if c.user.id == userId then { c with unreadCount := 0 } else c) := by
  unfold fetchMessages
  cases hfind : s.conversations.find? (fun c => c.user.id == userId) with
  | none => left; simp [hfind]
  | some c0 =>
      by_cases h0 : c0.unreadCount ≠ 0
      · right; simp [hfind, h0]
      · left; simp [hfind, h0]

theorem find?_map_pred_eq {α : Type} (p : α → Bool) (g : α → α)
    (hg : ∀ a, p (g a) = p a) (l : List α) :
    (l.map g).find? p = (l.find? p).map g := by
  induction l with
  | nil => rfl
  | cons a l ih =>
      simp only [List.map_cons, List.find?_cons, hg a]
      cases hpa : p a <;> simp [hpa, ih]

theorem fetchMessages_ok_find_unread_zero (userId : String) (resp : MessagesResponse)
    (s : ChatState) :
    ((fetchMessages true userId (Except.ok resp) s).1.conversations.find?
        (fun c => c.user.id == userId)).all (fun c => c.unreadCount == 0) = true := by
  unfold fetchMessages
  cases hfind : s.conversations.find? (fun c => c.user.id == userId) with
  | none => simp [hfind]
  | some c0 =>
      by_cases h0 : c0.unreadCount ≠ 0
      · have hp := List.find?_some hfind
        have hmap := find?_map_pred_eq (fun c : Conversation => c.user.id == userId)
          (fun c => if c.user.id == userId then { c with unreadCount := 0 } else c)
          (fun c => by by_cases h : (c.user.id == userId) = true <;> simp [h])
          s.conversations
        simp only [Bool.not_true, Bool.false_eq_true, if_false, hfind]
        rw [if_pos h0]
        show (((s.conversations.map (fun c =>
            if c.user.id == userId then { c with unreadCount := 0 } else c)).find?
            (fun c => c.user.id == userId)).all (fun c => c.unreadCount == 0)) = true
        rw [hmap, hfind]
        show ((if c0.user.id == userId then { c0 with unreadCount := 0 }
            else c0).unreadCount == 0) = true
        rw [if_pos hp]
        rfl
      · push_neg at h0
        simp [hfind, h0]

theorem sendMessage_ok_conversations (receiverId content : String) (message : Message)
    (s : ChatState) :
    (sendMessage true receiverId content (Except.ok message) s).1.conversations =
      s.conversations.map (fun conv =>
        if conv.user.id == receiverId then { conv with lastMessage := some message }
        else conv) := by
  unfold sendMessage
  cases hc : s.currentConversation <;>
    simp [hc, apply_ite ChatState.conversations]

theorem sendMessage_ok_currentConversation (receiverId content : String)
    (message : Message) (s : ChatState) :
    (sendMessage true receiverId content (Except.ok message) s).1.currentConversation =
      s.currentConversation := by
  unfold sendMessage
  cases hc : s.currentConversation <;>
    simp [hc, apply_ite ChatState.currentConversation]

theorem stateNonneg_of_eq_fields {s t : ChatState}
    (hc : t.conversations = s.conversations)
    (hcc : t.currentConversation = s.currentConversation)
    (hs : stateNonneg s) : stateNonneg t := by
  obtain ⟨h1, h2⟩ := hs
  exact ⟨fun c hm => h1 c (hc ▸ hm), fun c hm => h2 c (hcc ▸ hm)⟩

theorem step_preserves_nonneg {s t : ChatState} (h : Step s t) (hs : stateNonneg s) :
    stateNonneg t := by
  obtain ⟨hconvs, hcur⟩ := hs
  cases h with
  | connect auth fid f s =>
      refine stateNonneg_of_eq_fields ?_ ?_ ⟨hconvs, hcur⟩ <;>
        (unfold connectSocket; cases auth <;> cases f <;> simp)
  | disconnect s =>
      refine stateNonneg_of_eq_fields ?_ ?_ ⟨hconvs, hcur⟩ <;>
        (unfold disconnectSocket; cases hsock : s.socket <;> simp [hsock])
  | newMsg u m s =>
      cases u with
      | none =>
          exact stateNonneg_of_eq_fields (newMessageHandler_none_conversations m s)
            (newMessageHandler_currentConversation_eq none m s) ⟨hconvs, hcur⟩
      | some user =>
          constructor
          · intro c hm
            rw [newMessageHandler_conversations_eq] at hm
            obtain ⟨c0, hc0, rfl⟩ := List.mem_map.mp hm
            exact convUpdate_nonneg _ _ _ _ (hconvs c0 hc0)
          · intro c hm
            rw [newMessageHandler_currentConversation_eq] at hm
            exact hcur c hm
  | status userId isOnline s => exact ⟨hconvs, hcur⟩
  | bulkOnline users s => exact ⟨hconvs, hcur⟩
  | sockErr e s => exact ⟨hconvs, hcur⟩
  | connErr e s => exact ⟨hconvs, hcur⟩
  | clearErr s => exact ⟨hconvs, hcur⟩
  | fetchConvs auth r s hr =>
      cases auth with
      | false => exact ⟨hconvs, hcur⟩
      | true =>
          cases r with
          | error e => exact ⟨hconvs, hcur⟩
          | ok cs => exact ⟨fun c hm => hr cs rfl c hm, fun c hm => hcur c hm⟩
  | markRead auth mid r s =>
      cases auth with
      | false => exact ⟨hconvs, hcur⟩
      | true =>
          cases r with
          | error e => exact ⟨hconvs, hcur⟩
          | ok u => exact ⟨hconvs, hcur⟩
  | send auth rid content r s =>
      cases auth with
      | false => exact ⟨hconvs, hcur⟩
      | true =>
          cases r with
          | error e => exact ⟨hconvs, hcur⟩
          | ok message =>
              constructor
              · intro c hm
                rw [sendMessage_ok_conversations] at hm
                obtain ⟨c0, hc0, rfl⟩ := List.mem_map.mp hm
                by_cases hid : (c0.user.id == rid) = true <;> simp [hid] <;>
                  exact hconvs c0 hc0
              · intro c hm
                rw [sendMessage_ok_currentConversation] at hm
                exact hcur c hm
  | fetchMsgs auth userId r s =>
      cases auth with
      | false => exact ⟨hconvs, hcur⟩
      | true =>
          cases r with
          | error e => exact ⟨hconvs, hcur⟩
          | ok resp =>
              constructor
              · intro c hm
                rcases fetchMessages_ok_conversations userId resp s with hcvs | hcvs <;>
                  rw [hcvs] at hm
                · exact hconvs c hm
                · obtain ⟨c0, hc0, rfl⟩ := List.mem_map.mp hm
                  by_cases hid : (c0.user.id == userId) = true <;> simp [hid] <;>
                    exact hconvs c0 hc0
              · intro c hm
                rw [fetchMessages_ok_currentConversation] at hm
                injection hm with hm
                cases hfind : s.conversations.find? (fun c2 => c2.user.id == userId) with
                | none => rw [hfind] at hm; subst hm; simp
                | some c0 =>
                    rw [hfind] at hm
                    subst hm
                    exact hconvs c0 (List.mem_of_find?_eq_some hfind)

theorem reachable_nonneg {s : ChatState} (h : Reachable s) : stateNonneg s := by
  induction h with
  | refl =>
      constructor
      · intro c hm
        simp [initialChatState] at hm
      · intro c hm
        simp [initialChatState] at hm
  | tail hab hbc ih => exact step_preserves_nonneg hbc ih

/-- Fixture: the logged-in user. -/
def uAlice : User := { id := "alice", username := "alice", email := "alice@x" }

/-- Fixture: peer B. -/
def uBob : User := { id := "bob", username := "bob", email := "bob@x" }

/-- Fixture: peer A of the stale-fetch scenario. -/
def uCarol : User := { id := "carol", username := "carol", email := "carol@x" }

/-- Fixture: tracked conversation with peer B, no unread messages. -/
def convBob : Conversation :=
  { id := "c1", user := uBob, lastMessage := none, unreadCount := 0 }

/-- Fixture: a push message authored by peer B for the logged-in user. -/
def msgFromBob : Message :=
  { id := "m1", senderId := "bob", receiverId := "alice", content := "hi",
    read := false, createdAt := "t1" }

/-- Fixture: a message authored by peer A (Carol). -/
def msgFromCarol : Message :=
  { id := "mA", senderId := "carol", receiverId := "alice", content := "stale",
    read := false, createdAt := "t0" }

/-- Fixture: state with the conversation with B open. -/
def stOpenBob : ChatState :=
  { initialChatState with
      conversations := [convBob], currentConversation := some convBob }

/-- Fixture: conversation with B open and B's message loaded. -/
def stOpenBobMsgs : ChatState := { stOpenBob with messages := [msgFromBob] }

/-- Fixture: a state holding a live channel reference. -/
def stSocket1 : ChatState := { initialChatState with socket := some 1 }

/-- C1, counterexample.  The `newMessage` handler performs no id-based
dedup: delivering the same push message (id `"m1"`) twice while its
conversation is open leaves the id twice in `messages`, refuting "each
message id exactly once". -/
theorem newMessage_duplicate_id_twice :
    (((newMessageHandler (some uAlice) msgFromBob
        (newMessageHandler (some uAlice) msgFromBob stOpenBob).1).1).messages.filter
      (fun m => m.id == "m1")).length = 2 := by decide

/-- C1, amended.  A push message matching the open conversation's peer is
appended to `messages` unconditionally — no lookup of its id is made, so a
duplicate delivery is appended again rather than dropped. -/
theorem newMessage_appends_unconditionally (u : Option User) (m : Message)
    (s : ChatState) (cc : Conversation) (hcc : s.currentConversation = some cc)
    (hmatch : m.senderId = cc.user.id ∨ m.receiverId = cc.user.id) :
    (newMessageHandler u m s).1.messages = s.messages ++ [m] := by
  unfold newMessageHandler
  cases u <;> simp [hcc, hmatch, apply_ite ChatState.messages]

/-- C1, witness for the amended theorem. -/
theorem newMessage_appends_unconditionally_witness :
    (newMessageHandler (some uAlice) msgFromBob stOpenBob).1.messages =
      stOpenBob.messages ++ [msgFromBob] :=
  newMessage_appends_unconditionally (some uAlice) msgFromBob stOpenBob convBob rfl
    (Or.inl rfl)

/-- C2, counterexample.  A peer-authored push message arriving while its
conversation is the open one still increments that conversation's
`unreadCount` (from 0 to 1 here), refuting "not incremented while open". -/
theorem unread_incremented_while_open_cex :
    stOpenBob.currentConversation = some convBob ∧
    msgFromBob.senderId = convBob.user.id ∧
    ((newMessageHandler (some uAlice) msgFromBob stOpenBob).1.conversations.map
      Conversation.unreadCount) = [1] := by decide

/-- C2, amended.  The `conversations` update of the `newMessage` handler is
the same function of the message whatever `currentConversation` is: the
matching entry's `unreadCount` is incremented exactly when the message was
authored by the peer (sender ≠ self), open conversation or not. -/
theorem unread_update_independent_of_open (user : User) (m : Message) (s : ChatState) :
    ((newMessageHandler (some user) m s).1.conversations =
      s.conversations.map (convUpdate user.id m
        (if m.senderId = user.id then m.receiverId else m.senderId))) ∧
    (∀ conv : Conversation, ∀ other : String,
      (convUpdate user.id m other conv).unreadCount =
        if conv.user.id = other ∧ m.senderId ≠ user.id then conv.unreadCount + 1
        else conv.unreadCount) := by
  constructor
  · exact newMessageHandler_conversations_eq user m s
  · intro conv other
    unfold convUpdate
    by_cases h1 : conv.user.id = other <;> by_cases h2 : m.senderId = user.id <;>
      simp [h1, h2]

/-- C3, counterexample.  With the conversation with B (`convBob`) open and
B's messages loaded, the stale `fetchMessages` response for peer A (Carol)
is applied as-is: B's `messages` are overwritten with A's and
`currentConversation` becomes A's conversation — no still-relevant check
exists. -/
theorem stale_fetch_applied_cex :
    stOpenBobMsgs.currentConversation = some convBob ∧
    (fetchMessages true "carol"
        (Except.ok { messages := [msgFromCarol], user := uCarol })
        stOpenBobMsgs).1.messages = [msgFromCarol] ∧
    (fetchMessages true "carol"
        (Except.ok { messages := [msgFromCarol], user := uCarol })
        stOpenBobMsgs).1.currentConversation =
      some { id := "conv_carol", user := uCarol, lastMessage := none,
             unreadCount := 0 } := by decide

/-- C3, amended.  A resolved `fetchMessages(userId)` response is applied
unconditionally: whatever conversation is currently open, `messages` is
replaced with the response's messages and `currentConversation` is set to
the conversation for `userId` (the tracked entry, or a synthesized one). -/
theorem fetchMessages_applies_unconditionally (userId : String)
    (resp : MessagesResponse) (s : ChatState) :
    (fetchMessages true userId (Except.ok resp) s).1.messages = resp.messages ∧
    (fetchMessages true userId (Except.ok resp) s).1.currentConversation =
      some ((s.conversations.find? (fun c => c.user.id == userId)).getD
        { id := "conv_" ++ userId, user := resp.user, lastMessage := none,
          unreadCount := 0 }) :=
  ⟨fetchMessages_ok_messages userId resp s,
   fetchMessages_ok_currentConversation userId resp s⟩

/-- C4, counterexample.  Calling `connectSocket` while a connection already
exists (socket reference 1) opens a second channel (count 1) and replaces
the stored reference — the existing channel is not re-used. -/
theorem connectSocket_opens_second_channel_cex :
    stSocket1.socket = some 1 ∧
    connectSocket true 2 none stSocket1 = ({ stSocket1 with socket := some 2 }, 1) := by
  decide

/-- C4, amended.  `connectSocket` opens no channel when unauthenticated;
when authenticated it always opens a fresh channel and overwrites the
stored socket reference, even when one already exists — it is gated on
auth but not idempotent. -/
theorem connectSocket_gated_not_idempotent (freshId : Nat)
    (f : Option SocketErrVal) (s : ChatState) :
    connectSocket false freshId f s = (s, 0) ∧
    connectSocket true freshId none s = ({ s with socket := some freshId }, 1) :=
  ⟨rfl, rfl⟩

/-- C5, counterexample.  `disconnectSocket` in the already-disconnected
state does not clear `onlineUsers`: with a null socket and a stale
presence entry, the entry survives. -/
theorem disconnectSocket_no_clear_when_null_cex :
    ({ initialChatState with onlineUsers := ["bob"] } : ChatState).socket = none ∧
    (disconnectSocket { initialChatState with onlineUsers := ["bob"] }).1.onlineUsers
      = ["bob"] := by decide

/-- C5, amended.  `disconnectSocket` tears down the channel and clears
`onlineUsers` only when a socket reference exists; with a null reference it
is a complete no-op.  Applying it twice equals applying it once. -/
theorem disconnectSocket_conditional_teardown (s : ChatState) :
    (∀ k, s.socket = some k →
      disconnectSocket s = ({ s with socket := none, onlineUsers := [] }, true)) ∧
    (s.socket = none → disconnectSocket s = (s, false)) ∧
    (disconnectSocket (disconnectSocket s).1).1 = (disconnectSocket s).1 := by
  refine ⟨?_, ?_, ?_⟩
  · intro k hk
    unfold disconnectSocket
    rw [hk]
  · intro hk
    unfold disconnectSocket
    rw [hk]
  · cases hk : s.socket <;> simp [disconnectSocket, hk]

/-- C5, witness for the amended theorem. -/
theorem disconnectSocket_conditional_teardown_witness :
    disconnectSocket stSocket1 =
      ({ stSocket1 with socket := none, onlineUsers := [] }, true) ∧
    disconnectSocket initialChatState = (initialChatState, false) :=
  ⟨(disconnectSocket_conditional_teardown stSocket1).1 1 rfl,
   (disconnectSocket_conditional_teardown initialChatState).2.1 rfl⟩

/-- C6.  When the authenticated REST call of `sendMessage` fails, the
raised outcome is the classified `ChatError` produced by
`handleAxiosError` (its kind always set), and neither `messages` nor
`conversations` is mutated: both equal their pre-call values, there being
no optimistic insert before server confirmation to roll back. -/
theorem sendMessage_failure_no_mutation (receiverId content : String)
    (e : RestError) (s : ChatState) :
    (sendMessage true receiverId content (Except.error e) s).1.messages = s.messages ∧
    (sendMessage true receiverId content (Except.error e) s).1.conversations =
      s.conversations ∧
    (sendMessage true receiverId content (Except.error e) s).2.1 =
      SendOutcome.err (handleAxiosError e) ∧
    (handleAxiosError e).type.isSome = true := by
  refine ⟨rfl, rfl, rfl, ?_⟩
  cases e <;> rfl

/-- C7, counterexample.  Sending while unauthenticated raises the
precondition error with kind `auth`, not `validation`. -/
theorem sendMessage_unauth_kind_auth_cex :
    (sendMessage false "bob" "hi" (Except.error RestError.unknown)
        initialChatState).2.1 =
      SendOutcome.err
        { message := "You must be logged in to send messages",
          code := none, type := some ErrType.auth } ∧
    ErrType.auth ≠ ErrType.validation := by decide

/-- C7, amended.  Calling `sendMessage` while unauthenticated raises a
`ChatError` whose kind is `auth` (the code tags this caller-side
precondition as an auth failure, not `validation`), without issuing any
REST call (the result is the same whatever REST outcome is supplied) and
without mutating state or invoking logout. -/
theorem sendMessage_unauth_auth_error (receiverId content : String)
    (r : Except RestError Message) (s : ChatState) :
    sendMessage false receiverId content r s =
      (s,
       SendOutcome.err
         (createChatError "You must be logged in to send messages" ErrType.auth none),
       0) := rfl

/-- C8.  A REST failure of `sendMessage` with HTTP status 401 yields an
`auth`-kind `ChatError` carrying 401 as its code, and `logout()` is
invoked exactly once for that failure. -/
theorem sendMessage_401_auth_logout_once (dataMessage : Option String)
    (errMessage receiverId content : String) (s : ChatState) :
    (sendMessage true receiverId content
        (Except.error (RestError.response 401 dataMessage errMessage)) s).2.1 =
      SendOutcome.err (handleAxiosError (RestError.response 401 dataMessage errMessage)) ∧
    (handleAxiosError (RestError.response 401 dataMessage errMessage)).type =
      some ErrType.auth ∧
    (handleAxiosError (RestError.response 401 dataMessage errMessage)).code =
      some (ErrCode.num 401) ∧
    (sendMessage true receiverId content
        (Except.error (RestError.response 401 dataMessage errMessage)) s).2.2 = 1 :=
  ⟨rfl, rfl, rfl, rfl⟩

/-- Fixture: the conversation with B carrying three unread messages. -/
def convBobUnread3 : Conversation := { convBob with unreadCount := 3 }

/-- Fixture: state tracking `convBobUnread3`, nothing open. -/
def stBobUnread3 : ChatState :=
  { initialChatState with conversations := [convBobUnread3] }

/-- C9, counterexample.  After a successful `fetchMessages("bob")` from a
state where B's conversation has `unreadCount = 3`, the `conversations`
entry is reset to 0 but the `currentConversation` record set by the same
fetch still carries `unreadCount = 3` — not 0 as claimed. -/
theorem fetch_currentConv_keeps_unread_cex :
    ((fetchMessages true "bob" (Except.ok { messages := [], user := uBob })
        stBobUnread3).1.currentConversation.map Conversation.unreadCount) = some 3 ∧
    ((fetchMessages true "bob" (Except.ok { messages := [], user := uBob })
        stBobUnread3).1.conversations.map Conversation.unreadCount) = [0] := by decide

/-- C9, amended.  In every reachable state every tracked conversation
(list entries and the open one) has non-negative `unreadCount`; after a
successful `fetchMessages(userId)` the `conversations` entry for that peer
(when one exists) has `unreadCount = 0`, while the `currentConversation`
record set by the fetch is the pre-fetch conversation record (retaining
its old `unreadCount`), or a synthesized record with `unreadCount = 0`
when none was tracked. -/
theorem unread_nonneg_and_fetch_reset (s : ChatState) (userId : String)
    (resp : MessagesResponse) (hs : Reachable s) :
    stateNonneg s ∧
    ((fetchMessages true userId (Except.ok resp) s).1.conversations.find?
        (fun c => c.user.id == userId)).all (fun c => c.unreadCount == 0) = true ∧
    (fetchMessages true userId (Except.ok resp) s).1.currentConversation =
      some ((s.conversations.find? (fun c => c.user.id == userId)).getD
        { id := "conv_" ++ userId, user := resp.user, lastMessage := none,
          unreadCount := 0 }) :=
  ⟨reachable_nonneg hs, fetchMessages_ok_find_unread_zero userId resp s,
   fetchMessages_ok_currentConversation userId resp s⟩

/-- C9, witness for the amended theorem. -/
theorem unread_nonneg_and_fetch_reset_witness :
    stateNonneg initialChatState ∧
    ((fetchMessages true "bob" (Except.ok { messages := [], user := uBob })
        initialChatState).1.conversations.find?
        (fun c => c.user.id == "bob")).all (fun c => c.unreadCount == 0) = true ∧
    (fetchMessages true "bob" (Except.ok { messages := [], user := uBob })
        initialChatState).1.currentConversation =
      some ((initialChatState.conversations.find? (fun c => c.user.id == "bob")).getD
        { id := "conv_" ++ "bob", user := uBob, lastMessage := none,
          unreadCount := 0 }) :=
  unread_nonneg_and_fetch_reset initialChatState "bob"
    { messages := [], user := uBob } Relation.ReflTransGen.refl

/-- C10.  With `isAuthenticated = false`, `fetchConversations`,
`fetchMessages` and `markMessageAsRead` are silent no-ops: no REST call is
issued, no logout happens, no read receipts are dispatched, and the state
— every field, `loading` and `error` included — is returned unchanged. -/
theorem unauthenticated_ops_are_noops (userId messageId : String)
    (rc : Except RestError (List Conversation))
    (rm : Except RestError MessagesResponse)
    (rr : Except RestError Unit) (s : ChatState) :
    fetchConversations false rc s = (s, false, 0) ∧
    fetchMessages false userId rm s = (s, false, 0, []) ∧
    markMessageAsRead false messageId rr s = (s, false, 0) :=
  ⟨rfl, rfl, rfl⟩
